import Mathlib

/-!
Verification of the Markdown-to-styled-document transducer (`render_markdown`)
of the md-preview repository. The transducer consumes a stream of parse events
produced by an external Markdown tokenizer and produces a styled, line-oriented
document. The tokenizer itself is an external collaborator; the embedding
therefore takes the event stream as input, exactly as the Rust function's
event loop does.

The embedding below is a direct transliteration of the Rust source:
ratatui styles become the `Style` structure (fg/bg as `Option Color`, the
modifier bit set as five booleans), `Vec` push/pop become list append /
`dropLast`, `u64` arithmetic is `Nat` with reduction modulo `2 ^ 64` where the
source increments, and the one loop that is not structurally recursive (the
placeholder segmentation `while let` loop) is given explicit fuel, proved
sufficient below.
-/

namespace MdPreview

/-- Colors used by the renderer: 24-bit RGB values plus the named color
`Yellow` used for the code-fence language label. -/
inductive Color where
  | rgb (r g b : Nat)
  | yellow
deriving DecidableEq

/-- The color theme record, mirroring `struct ColorScheme` of the source. -/
structure ColorScheme where
  bg : Color
  fg : Color
  selection_bg : Color
  selection_fg : Color
  comment : Color
  link : Color
  heading : Color
  code_bg : Color
  inline_code_bg : Color
  quote_fg : Color
  quote_border : Color
  hr : Color
deriving DecidableEq

/-- The `GITHUB_DARK_THEME` constant of the source. -/
def GITHUB_DARK_THEME : ColorScheme where
  bg := Color.rgb 13 17 23
  fg := Color.rgb 201 209 217
  selection_bg := Color.rgb 3 34 82
  selection_fg := Color.rgb 201 209 217
  comment := Color.rgb 139 148 158
  link := Color.rgb 88 166 255
  heading := Color.rgb 88 166 255
  code_bg := Color.rgb 22 27 34
  inline_code_bg := Color.rgb 40 45 53
  quote_fg := Color.rgb 139 148 158
  quote_border := Color.rgb 48 54 61
  hr := Color.rgb 33 38 45

/-- The ratatui modifier bit set, restricted to the modifiers the source
uses: BOLD, DIM, ITALIC, UNDERLINED, CROSSED_OUT. -/
structure Modifiers where
  bold : Bool := false
  dim : Bool := false
  italic : Bool := false
  underlined : Bool := false
  crossed_out : Bool := false
deriving DecidableEq

def MOD_BOLD : Modifiers := { bold := true }
def MOD_DIM : Modifiers := { dim := true }
def MOD_ITALIC : Modifiers := { italic := true }
def MOD_UNDERLINED : Modifiers := { underlined := true }
def MOD_CROSSED_OUT : Modifiers := { crossed_out := true }

/-- A ratatui `Style`: optional foreground, optional background and a set of
modifiers. `Style::default()` of the source is the record with all fields at
their defaults. -/
structure Style where
  fg : Option Color := none
  bg : Option Color := none
  modifiers : Modifiers := {}
deriving DecidableEq

/-- `Style::default()`. -/
def Style.default : Style := {}

/-- `Style::fg(self, color)`: sets the foreground. -/
def Style.setFg (s : Style) (c : Color) : Style := { s with fg := some c }

/-- `Style::bg(self, color)`: sets the background. -/
def Style.setBg (s : Style) (c : Color) : Style := { s with bg := some c }

/-- `Style::add_modifier(self, m)`: bitwise OR of the modifier set. -/
def Style.add_modifier (s : Style) (m : Modifiers) : Style :=
  { s with modifiers :=
    { bold := s.modifiers.bold || m.bold
      dim := s.modifiers.dim || m.dim
      italic := s.modifiers.italic || m.italic
      underlined := s.modifiers.underlined || m.underlined
      crossed_out := s.modifiers.crossed_out || m.crossed_out } }

/-- A ratatui `Span`: a literal text run with a resolved style. -/
structure Span where
  text : String
  style : Style
deriving DecidableEq

/-- `Span::raw`. -/
def Span.raw (t : String) : Span := ⟨t, Style.default⟩

/-- `Span::styled`. -/
def Span.styled (t : String) (s : Style) : Span := ⟨t, s⟩

/-- A ratatui `Line`: an ordered sequence of spans. -/
structure Line where
  spans : List Span
deriving DecidableEq

/-- `Line::default()`: the blank line. -/
def Line.default : Line := ⟨[]⟩

/-- A ratatui `Text`: the complete styled document, an ordered list of lines. -/
structure Text where
  lines : List Line
deriving DecidableEq

/-- `pulldown_cmark::CodeBlockKind`. -/
inductive CodeBlockKind where
  | Fenced (lang : String)
  | Indented
deriving DecidableEq

/-- `pulldown_cmark::Alignment` for table columns. -/
inductive Alignment where
  | None
  | Left
  | Center
  | Right
deriving DecidableEq

/-- The start tags of the event stream, restricted to the payloads the source
reads: heading level (1 to 6, other heading fields are never read), the code
block kind, the table alignment list and the optional ordered-list start
number (a `u64` in the source). The `Other` constructor stands for every tag
the source's catch-all `_ => {}` arm ignores (link payloads included, since
`Tag::Link { .. }` discards them). -/
inductive Tag where
  | Heading (level : Nat)
  | BlockQuote
  | CodeBlock (kind : CodeBlockKind)
  | Table (aligns : List Alignment)
  | TableHead
  | TableRow
  | TableCell
  | List (start_num : Option Nat)
  | Item
  | Emphasis
  | Strong
  | Strikethrough
  | Link
  | Paragraph
  | Other
deriving DecidableEq

/-- The end tags. `Heading` and `List` carry payloads in the source
(`TagEnd::Heading(level)`, `TagEnd::List(ordered)`) that the match arms
ignore. -/
inductive TagEnd where
  | Heading (level : Nat)
  | BlockQuote
  | CodeBlock
  | Table
  | TableHead
  | TableRow
  | TableCell
  | List (ordered : Bool)
  | Item
  | Paragraph
  | Emphasis
  | Strong
  | Strikethrough
  | Link
  | Other
deriving DecidableEq

/-- `pulldown_cmark::Event`, restricted to the variants the source matches;
`Other` stands for the variants its catch-all `_ => {}` arm ignores. -/
inductive MarkdownEvent where
  | Start (tag : Tag)
  | End (tag : TagEnd)
  | Text (t : String)
  | Code (t : String)
  | Html (t : String)
  | SoftBreak
  | HardBreak
  | Rule
  | Other
deriving DecidableEq

/-- 2 ^ 64: the counter in the list stack is a `u64` in the source, so the
increment wraps modulo this value. -/
def W64 : Nat := 18446744073709551616

/-- The mutable state threaded through the event loop of `render_markdown`:
the output lines, the pending-line span buffer, the style context stack
(initialized with one baseline entry), the list context stack, and the table
context (alignment sequence and header flag), plus the code-block flag. -/
structure RenderState where
  lines : List Line
  current_spans : List Span
  style_stack : List Style
  list_stack : List Nat
  table_alignments : List Alignment
  in_table_header : Bool
  in_code_block : Bool
deriving DecidableEq

/-- The initial state of `render_markdown`: empty output, empty pending line,
style stack holding the single baseline entry
`Style::default().fg(theme.fg)`, empty list stack, cleared table context. -/
def initState (theme : ColorScheme) : RenderState :=
  { lines := []
    current_spans := []
    style_stack := [Style.default.setFg theme.fg]
    list_stack := []
    table_alignments := []
    in_table_header := false
    in_code_block := false }

/-- The flush idiom repeated throughout the source:
`if !current_spans.is_empty() { lines.push(Line::from(mem::take(&mut current_spans))) }`. -/
def flushLine (st : RenderState) : RenderState :=
  if st.current_spans.isEmpty then st
  else { st with lines := st.lines ++ [⟨st.current_spans⟩], current_spans := [] }

/-- Whether `p` is a prefix of `t` (character-level model of byte-level
substring matching on UTF-8 strings; event texts are always cut at codepoint
boundaries). -/
def isPrefixAt : List Char → List Char → Bool
  | [], _ => true
  | _ :: _, [] => false
  | p :: ps, c :: cs => p == c && isPrefixAt ps cs

/-- `str::find(pattern)`: index of the leftmost occurrence of `ph` in `t`,
if any. -/
def findSub (ph : List Char) : List Char → Option Nat
  | [] => if isPrefixAt ph [] then some 0 else none
  | c :: cs => if isPrefixAt ph (c :: cs) then some 0 else (findSub ph cs).map (· + 1)

/-- Splits a character list at each newline character; the model of the
splitting underlying `str::lines`. Always returns at least one (possibly
empty) part. -/
def splitNl : List Char → List (List Char)
  | [] => [[]]
  | c :: r =>
    if c = '\n' then [] :: splitNl r
    else
      match splitNl r with
      | [] => [[c]]
      | l :: ls => (c :: l) :: ls

/-- Removes one trailing carriage return, as `str::lines` does on each line
terminated by a newline. -/
def stripCr (l : List Char) : List Char :=
  if l.getLast? = some '\r' then l.dropLast else l

/-- `str::lines()`: split at newlines, drop the final empty part produced by a
trailing newline, strip one `\r` from every newline-terminated part. -/
def rustLines (t : List Char) : List (List Char) :=
  let parts := splitNl t
  match parts.getLast? with
  | none => []
  | some last =>
      (parts.dropLast.map stripCr) ++ (if last = [] then [] else [last])

/-- The placeholder segmentation loop of the text-event handler
(`while let Some(placeholder_pos) = text[last_pos..].find(br_placeholder)`):
the text before each occurrence is appended as a span (if non-empty), the
pending line is flushed (if non-empty), and scanning resumes after the
occurrence; the text after the last occurrence is appended as a span (if
non-empty). The loop is expressed on the remaining suffix of the text and is
given explicit fuel; fuel `t.length + 1` is proved sufficient below whenever
the placeholder is non-empty. -/
def segLoopFuel (ph : List Char) (sty : Style) :
    Nat → List Char → List Span → List Line → Option (List Line × List Span)
  | 0, _, _, _ => none
  | fuel + 1, t, cur, acc =>
    match findSub ph t with
    | none =>
        some (acc, if t.isEmpty then cur else cur ++ [Span.styled (String.mk t) sty])
    | some p =>
        if (t.take p).isEmpty then
          if cur.isEmpty then
            segLoopFuel ph sty fuel (t.drop (p + ph.length)) cur acc
          else
            segLoopFuel ph sty fuel (t.drop (p + ph.length)) [] (acc ++ [Line.mk cur])
        else
          segLoopFuel ph sty fuel (t.drop (p + ph.length)) []
            (acc ++ [Line.mk (cur ++ [Span.styled (String.mk (t.take p)) sty])])

/-- One step of the transducer: the body of the `for event in parser` loop of
`render_markdown`, transliterated arm by arm. The only fallible point is the
fuel of the segmentation loop, whose `none` branch is proved unreachable
below. -/
def processEvent (br_placeholder : String) (theme : ColorScheme)
    (st : RenderState) (e : MarkdownEvent) : Option RenderState :=
  match e with
  | MarkdownEvent.Start tag =>
    let current_style := st.style_stack.getLast?.getD Style.default
    match tag with
    | Tag.Heading level =>
        let st := flushLine st
        let st := { st with lines := st.lines ++ [Line.default] }
        let base_style := (Style.default.add_modifier MOD_BOLD).setFg theme.heading
        let style := if 3 ≤ level then base_style.add_modifier MOD_DIM else base_style
        some { st with style_stack := st.style_stack ++ [style] }
    | Tag.BlockQuote =>
        let st := flushLine st
        let style := Style.default.setFg theme.quote_fg
        let st := { st with current_spans := st.current_spans ++
          [Span.styled "▎" (Style.default.setFg theme.quote_border), Span.raw " "] }
        some { st with style_stack := st.style_stack ++ [style] }
    | Tag.CodeBlock kind =>
        let st := flushLine st
        let st := { st with lines := st.lines ++ [Line.default] }
        let st := { st with in_code_block := true }
        let lang := match kind with
                    | CodeBlockKind.Fenced l => l
                    | CodeBlockKind.Indented => ""
        let border_style := Style.default.setFg theme.comment
        let st := { st with lines := st.lines ++
          [Line.mk [Span.styled "┌─── " border_style,
                    Span.styled lang (Style.default.setFg Color.yellow)]] }
        some { st with style_stack := st.style_stack ++ [Style.default.setBg theme.code_bg] }
    | Tag.Table aligns =>
        let st := flushLine st
        some { st with table_alignments := aligns }
    | Tag.TableHead =>
        some { st with in_table_header := true }
    | Tag.TableRow =>
        some { st with current_spans := st.current_spans ++
          [Span.styled "│ " (Style.default.setFg theme.comment)] }
    | Tag.TableCell => some st
    | Tag.List start_num =>
        let st := flushLine st
        some { st with list_stack := st.list_stack ++ [start_num.getD 1] }
    | Tag.Item =>
        let st := flushLine st
        let indent := String.join (List.replicate (st.list_stack.length - 1) "  ")
        let mk := match st.list_stack.getLast? with
                  | some num =>
                      (toString num ++ ". ", st.list_stack.dropLast ++ [(num + 1) % W64])
                  | none => ("• ", st.list_stack)
        let st := { st with list_stack := mk.2 }
        some { st with current_spans := st.current_spans ++
          [Span.raw indent, Span.styled mk.1 (Style.default.setFg theme.comment)] }
    | Tag.Emphasis =>
        some { st with style_stack := st.style_stack ++
          [current_style.add_modifier MOD_ITALIC] }
    | Tag.Strong =>
        some { st with style_stack := st.style_stack ++
          [current_style.add_modifier MOD_BOLD] }
    | Tag.Strikethrough =>
        some { st with style_stack := st.style_stack ++
          [current_style.add_modifier MOD_CROSSED_OUT] }
    | Tag.Link =>
        some { st with style_stack := st.style_stack ++
          [(Style.default.setFg theme.link).add_modifier MOD_UNDERLINED] }
    | Tag.Paragraph => some st
    | Tag.Other => some st
  | MarkdownEvent.End tag =>
    match tag with
    | TagEnd.Heading _ | TagEnd.BlockQuote | TagEnd.Item =>
        let st := flushLine st
        some { st with style_stack := st.style_stack.dropLast }
    | TagEnd.CodeBlock =>
        let st := { st with in_code_block := false }
        let st := { st with lines := st.lines ++
          [Line.mk [Span.styled "└──────────────────" (Style.default.setFg theme.comment)],
           Line.default] }
        some { st with style_stack := st.style_stack.dropLast }
    | TagEnd.Table =>
        some { st with table_alignments := [], lines := st.lines ++ [Line.default] }
    | TagEnd.TableHead =>
        some { st with in_table_header := false }
    | TagEnd.TableRow =>
        some (flushLine st)
    | TagEnd.TableCell =>
        some { st with current_spans := st.current_spans ++
          [Span.styled " │ " (Style.default.setFg theme.comment)] }
    | TagEnd.List _ =>
        some { st with list_stack := st.list_stack.dropLast,
                       lines := st.lines ++ [Line.default] }
    | TagEnd.Paragraph =>
        let st := flushLine st
        some { st with lines := st.lines ++ [Line.default] }
    | TagEnd.Emphasis | TagEnd.Strong | TagEnd.Strikethrough | TagEnd.Link =>
        some { st with style_stack := st.style_stack.dropLast }
    | TagEnd.Other => some st
  | MarkdownEvent.Text t =>
    let style := st.style_stack.getLast?.getD Style.default
    if st.in_code_block then
      some { st with lines := st.lines ++ (rustLines t.data).map (fun l =>
        Line.mk [Span.styled "│ " (Style.default.setFg theme.comment),
                 Span.styled (String.mk l) (style.setFg theme.fg)]) }
    else
      let final_style := if st.in_table_header then style.add_modifier MOD_BOLD else style
      if br_placeholder.data ≠ [] ∧ (findSub br_placeholder.data t.data).isSome = true then
        (segLoopFuel br_placeholder.data final_style
            (t.data.length + 1) t.data st.current_spans st.lines).map
          (fun r => { st with lines := r.1, current_spans := r.2 })
      else
        some { st with current_spans := st.current_spans ++ [Span.styled t final_style] }
  | MarkdownEvent.Html h =>
      some { st with current_spans := st.current_spans ++
        [Span.styled h (Style.default.setFg theme.comment)] }
  | MarkdownEvent.Code t =>
      some { st with current_spans := st.current_spans ++
        [Span.styled (" " ++ t ++ " ")
          ((Style.default.setFg theme.fg).setBg theme.inline_code_bg)] }
  | MarkdownEvent.HardBreak =>
      some (flushLine st)
  | MarkdownEvent.SoftBreak =>
      some { st with current_spans := st.current_spans ++ [Span.raw " "] }
  | MarkdownEvent.Rule =>
      let st := flushLine st
      some { st with lines := st.lines ++
        [Line.mk [Span.styled (String.mk (List.replicate 80 '─'))
                    (Style.default.setFg theme.hr)],
         Line.default] }
  | MarkdownEvent.Other => some st

/-- The full event loop of `render_markdown` followed by the trailing flush,
returning the final state. -/
def renderStateOpt (events : List MarkdownEvent) (br_placeholder : String)
    (theme : ColorScheme) : Option RenderState :=
  (events.foldlM (processEvent br_placeholder theme) (initState theme)).map flushLine

/-- `render_markdown`: the event stream to styled document transducer. -/
def render_markdown (events : List MarkdownEvent) (br_placeholder : String)
    (theme : ColorScheme) : Text :=
  match renderStateOpt events br_placeholder theme with
  | some st => ⟨st.lines⟩
  | none => ⟨[]⟩

/-- All spans of a document, in display order. -/
def allSpans (t : Text) : List Span :=
  (t.lines.map Line.spans).flatten

/-- The style the renderer gives every list-item marker span. -/
def markerStyle (theme : ColorScheme) : Style :=
  Style.default.setFg theme.comment

/-- The texts of the spans carrying the marker style, in display order. In an
event stream made only of list, item and plain-text events these are exactly
the item markers. -/
def markerTexts (t : Text) (theme : ColorScheme) : List String :=
  ((allSpans t).filter (fun sp => decide (sp.style = markerStyle theme))).map Span.text

/-! ## Helper lemmas: termination of the segmentation loop, totality -/

/-- `Option.map` preserves `isSome`. -/
theorem optionIsSome_map {A B : Type} (f : A → B) (o : Option A) :
    (o.map f).isSome = o.isSome := by
  cases o <;> rfl

theorem isPrefixAt_length {ph t : List Char} (h : isPrefixAt ph t = true) :
    ph.length ≤ t.length := by
  induction ph generalizing t with
  | nil => simp
  | cons p ps ih =>
    cases t with
    | nil => simp [isPrefixAt] at h
    | cons c cs =>
      simp only [isPrefixAt, Bool.and_eq_true] at h
      have := ih h.2
      simp only [List.length_cons]
      omega

theorem findSub_le {ph t : List Char} {p : Nat} (h : findSub ph t = some p) :
    p + ph.length ≤ t.length := by
  induction t generalizing p with
  | nil =>
    simp only [findSub] at h
    split at h
    · have h0 := isPrefixAt_length (by assumption)
      injection h with h
      simp only [List.length_nil] at h0 ⊢
      omega
    · exact absurd h (by simp)
  | cons c cs ih =>
    simp only [findSub] at h
    split at h
    · have h0 := isPrefixAt_length (by assumption)
      injection h with h
      simp only [List.length_cons] at h0 ⊢
      omega
    · simp only [Option.map_eq_some'] at h
      obtain ⟨q, hq, rfl⟩ := h
      have := ih hq
      simp only [List.length_cons]
      omega

theorem segLoopFuel_isSome (ph : List Char) (sty : Style) (hph : ph ≠ []) :
    ∀ (fuel : Nat) (t : List Char) (cur : List Span) (acc : List Line),
      t.length < fuel → (segLoopFuel ph sty fuel t cur acc).isSome = true := by
  intro fuel
  induction fuel with
  | zero => intro t cur acc h; omega
  | succ n ih =>
    intro t cur acc h
    rw [segLoopFuel]
    split
    · simp
    · rename_i p hf
      have hle := findSub_le hf
      have hph1 : 1 ≤ ph.length := by
        cases ph
        · exact absurd rfl hph
        · simp
      have hlt : (t.drop (p + ph.length)).length < n := by
        simp only [List.length_drop]
        omega
      split
      · split
        · exact ih _ _ _ hlt
        · exact ih _ _ _ hlt
      · exact ih _ _ _ hlt

theorem processEvent_isSome (ph : String) (theme : ColorScheme)
    (st : RenderState) (e : MarkdownEvent) :
    (processEvent ph theme st e).isSome = true := by
  cases e with
  | Start tag => cases tag <;> simp [processEvent]
  | End tag => cases tag <;> simp [processEvent]
  | Text t =>
    simp only [processEvent]
    by_cases hc : st.in_code_block = true
    · rw [if_pos hc]; simp
    · rw [if_neg hc]
      by_cases hg : ph.data ≠ [] ∧ (findSub ph.data t.data).isSome = true
      · rw [if_pos hg]
        rw [optionIsSome_map]
        exact segLoopFuel_isSome _ _ hg.1 _ _ _ _ (by omega)
      · rw [if_neg hg]; simp
  | Code t => simp [processEvent]
  | Html h => simp [processEvent]
  | SoftBreak => simp [processEvent]
  | HardBreak => simp [processEvent]
  | Rule => simp [processEvent]
  | Other => simp [processEvent]

theorem foldlM_processEvent_isSome (ph : String) (theme : ColorScheme) :
    ∀ (es : List MarkdownEvent) (st : RenderState),
      (es.foldlM (processEvent ph theme) st).isSome = true := by
  intro es
  induction es with
  | nil => intro st; simp [List.foldlM]
  | cons e es ih =>
    intro st
    obtain ⟨s1, hs1⟩ := Option.isSome_iff_exists.mp (processEvent_isSome ph theme st e)
    simp only [List.foldlM, hs1, Option.bind_eq_bind, Option.some_bind]
    exact ih s1

theorem renderStateOpt_isSome (events : List MarkdownEvent) (ph : String)
    (theme : ColorScheme) : (renderStateOpt events ph theme).isSome = true := by
  rw [renderStateOpt]
  rw [optionIsSome_map]
  exact foldlM_processEvent_isSome ph theme events (initState theme)

/-! ## Shared evaluation helpers and concrete styles -/

/-- The baseline style: `Style::default().fg(theme.fg)` for the GitHub dark
theme, the single entry the style stack starts with. -/
def styleBaseline : Style := Style.default.setFg GITHUB_DARK_THEME.fg

/-- The baseline style with the bold modifier (as applied to text inside a
table header). -/
def styleBold : Style := styleBaseline.add_modifier MOD_BOLD

/-- The muted style `Style::default().fg(theme.comment)` used for table
borders, cell separators and list markers. -/
def styleComment : Style := Style.default.setFg GITHUB_DARK_THEME.comment

/-- Flushing the pending line never changes the list stack. -/
theorem flushLine_list_stack (st : RenderState) :
    (flushLine st).list_stack = st.list_stack := by
  rw [flushLine]; split <;> rfl

/-- Flushing the pending line never changes the style stack. -/
theorem flushLine_style_stack (st : RenderState) :
    (flushLine st).style_stack = st.style_stack := by
  rw [flushLine]; split <;> rfl

/-! ## C1 — stack balance after a well-formed stream

The event stream of the one-item unordered list `- x` is well formed (every
`Start` has exactly one properly nested matching `End`), yet processing it
leaves the style stack empty: `End(Item)` pops an entry although
`Start(Item)` pushes none, so the baseline entry is removed. -/

/-- The well-formed event stream of the source text `- x`: one unordered
list containing one item. -/
def c1_events : List MarkdownEvent :=
  [.Start (.List none), .Start .Item, .Text "x", .End .Item, .End (.List false)]

/-- C1: processing the well-formed stream of `- x` ends with the style
context stack empty — the baseline entry has been popped by `End(Item)` —
while the list context and the table context are indeed back to their
empty/cleared configuration. This contradicts the claim that the style stack
ends holding exactly its one baseline entry. -/
theorem c1_item_end_pops_baseline :
    (renderStateOpt c1_events "[[BR_TAG]]" GITHUB_DARK_THEME).map
      (fun st => (st.style_stack.length, st.list_stack, st.table_alignments,
                  st.in_table_header))
      = some (0, [], [], false) := by decide

/-! ## C2 — list context entries and item markers -/

/-- The well-formed event stream of the unordered list `- a` / `- b`. -/
def c2_events : List MarkdownEvent :=
  [.Start (.List none), .Start .Item, .Text "a", .End .Item,
   .Start .Item, .Text "b", .End .Item, .End (.List false)]

/-- C2: the items of an unordered list are rendered with numbered markers
`"1. "`, `"2. "` and no bullet glyph appears anywhere in the output: list
open pushes `start_num.unwrap_or(1)` (a plain counter, not an optional one),
so the bullet branch of the item handler is unreachable for items inside a
list. This contradicts the claim that unordered items receive a bullet
marker. -/
theorem c2_unordered_items_numbered :
    markerTexts (render_markdown c2_events "[[BR_TAG]]" GITHUB_DARK_THEME)
        GITHUB_DARK_THEME = ["1. ", "2. "]
    ∧ "• " ∉ (allSpans (render_markdown c2_events "[[BR_TAG]]" GITHUB_DARK_THEME)).map
        Span.text := by decide

/-! ## C3 — unmatched close events -/

/-- C3 counterexample: processing the single unmatched close event
`End(Emphasis)` drops the style stack depth from one to zero — the baseline
entry is removed, refuting the claim that the depth never drops below one. -/
theorem c3_counterexample :
    (renderStateOpt [MarkdownEvent.End TagEnd.Emphasis] "[[BR_TAG]]"
        GITHUB_DARK_THEME).map (fun st => decide (1 ≤ st.style_stack.length))
      = some false := by decide

/-- C3 (amended): an unmatched close never faults — the pop is `Vec::pop`,
which removes the last entry when one exists and is a no-op on an empty
stack, but it does remove the baseline when only the baseline is present;
once the stack is empty a subsequent style lookup falls back to
`Style::default()` (the unthemed default), not to the themed baseline. -/
theorem c3_pop_never_fails (ph : String) (theme : ColorScheme) (st : RenderState) :
    processEvent ph theme st (MarkdownEvent.End TagEnd.Emphasis)
      = some { st with style_stack := st.style_stack.dropLast }
    ∧ (∀ (t : String), st.style_stack = [] → st.in_code_block = false →
        st.in_table_header = false →
        processEvent "" theme st (MarkdownEvent.Text t)
          = some { st with current_spans :=
              st.current_spans ++ [Span.styled t Style.default] }) := by
  refine ⟨rfl, ?_⟩
  intro t hstack hc hh
  have hd : ("" : String).data = [] := rfl
  simp [processEvent, hstack, hc, hh, hd]

/-- Witness state for the C3 theorem: the fresh state with the single
baseline entry. -/
def c3_base_state : RenderState := initState GITHUB_DARK_THEME

/-- Witness state for the C3 theorem: a state whose style stack is already
empty. -/
def c3_empty_state : RenderState :=
  { initState GITHUB_DARK_THEME with style_stack := [] }

theorem c3_pop_never_fails_witness :
    processEvent "[[BR_TAG]]" GITHUB_DARK_THEME c3_base_state
        (MarkdownEvent.End TagEnd.Emphasis)
      = some { c3_base_state with style_stack := c3_base_state.style_stack.dropLast }
    ∧ processEvent "" GITHUB_DARK_THEME c3_empty_state (MarkdownEvent.Text "hello")
      = some { c3_empty_state with current_spans :=
          c3_empty_state.current_spans ++ [Span.styled "hello" Style.default] } :=
  ⟨(c3_pop_never_fails "[[BR_TAG]]" GITHUB_DARK_THEME c3_base_state).1,
   (c3_pop_never_fails "" GITHUB_DARK_THEME c3_empty_state).2 "hello" rfl rfl rfl⟩

/-! ## C4 — the break-marker placeholder inside a table cell

The source text `a<br>b` in a table cell reaches the renderer (after the
`<br>`/`<BR>` substitution done by `PreviewState::new` and tokenizing) as the
text event `"a[[BR_TAG]]b"` inside table-cell events. -/

/-- The event stream of a one-column table whose header cell holds
`a<br>b`, after placeholder substitution and tokenizing. -/
def c4_events : List MarkdownEvent :=
  [.Start (.Table [Alignment.None]), .Start .TableHead, .Start .TableCell,
   .Text "a[[BR_TAG]]b", .End .TableCell, .End .TableHead, .End .Table]

/-- C4 counterexample: in the rendered output of `a<br>b` inside a table
cell there is no span at all between the span `"a"` and the span `"b"` — in
particular no break-marker span — refuting the claimed
`"a"` / marker / `"b"` span sequence. -/
theorem c4_counterexample :
    ¬ ∃ (i j k : Fin (allSpans (render_markdown c4_events "[[BR_TAG]]"
          GITHUB_DARK_THEME)).length),
        i < j ∧ j < k
        ∧ ((allSpans (render_markdown c4_events "[[BR_TAG]]" GITHUB_DARK_THEME)).get i).text = "a"
        ∧ ((allSpans (render_markdown c4_events "[[BR_TAG]]" GITHUB_DARK_THEME)).get k).text = "b" := by
  decide

/-- C4 (amended): the placeholder is never lost, but it is restored as a
physical line break rather than as an inline marker span: the span `"a"` ends
its line, the pending line is flushed at the placeholder position, and the
span `"b"` starts a later line (the intervening blank line is the one the
table-close handler appends before the final flush). Both cell fragments
carry the bold header style. -/
theorem c4_break_renders_as_line_flush :
    render_markdown c4_events "[[BR_TAG]]" GITHUB_DARK_THEME
      = ⟨[Line.mk [Span.styled "a" styleBold],
          Line.default,
          Line.mk [Span.styled "b" styleBold, Span.styled " │ " styleComment]]⟩ := by
  decide

/-! ## C5 — ordered list numbering -/

/-- The event stream of an ordered list with declared start `N` holding
three items, the second of which contains a nested ordered list declared to
start at 7 with two items. -/
def c5_events (N : Nat) : List MarkdownEvent :=
  [.Start (.List (some N)), .Start .Item, .Text "a", .End .Item,
   .Start .Item, .Text "b",
     .Start (.List (some 7)), .Start .Item, .Text "c", .End .Item,
     .Start .Item, .Text "d", .End .Item, .End (.List true),
   .End .Item,
   .Start .Item, .Text "e", .End .Item, .End (.List true)]

/-- C5: ordered-list numbering. First conjunct: whenever the innermost list
context entry is the counter `n`, an item-open emits the marker `"n. "` (with
the depth-proportional indent) and increments exactly the innermost counter,
so consecutive items at the same depth receive `n`, `n + 1`, `n + 2`, …
Second conjunct: a nested list-open pushes its own independent counter and
the matching list-close pops it, leaving the parent's counter untouched.
Third conjunct: end to end, the list starting at 3 with a nested list
starting at 7 yields the markers 3, 4 then nested 7, 8, then the parent
resumes with 5. -/
theorem c5_ordered_list_numbering :
    (∀ (ph : String) (theme : ColorScheme) (st : RenderState) (l : List Nat) (n : Nat),
        st.list_stack = l ++ [n] →
        processEvent ph theme st (MarkdownEvent.Start Tag.Item)
          = some { flushLine st with
              list_stack := l ++ [(n + 1) % W64],
              current_spans := (flushLine st).current_spans ++
                [Span.raw (String.join (List.replicate ((l ++ [n]).length - 1) "  ")),
                 Span.styled (toString n ++ ". ") (markerStyle theme)] })
    ∧ (∀ (ph : String) (theme : ColorScheme) (st : RenderState) (m : Nat) (b : Bool),
        processEvent ph theme st (MarkdownEvent.Start (Tag.List (some m)))
          = some { flushLine st with list_stack := (flushLine st).list_stack ++ [m] }
        ∧ processEvent ph theme st (MarkdownEvent.End (TagEnd.List b))
          = some { st with list_stack := st.list_stack.dropLast,
                           lines := st.lines ++ [Line.default] })
    ∧ markerTexts (render_markdown (c5_events 3) "[[BR_TAG]]" GITHUB_DARK_THEME)
        GITHUB_DARK_THEME = ["3. ", "4. ", "7. ", "8. ", "5. "] := by
  refine ⟨?_, ?_, ?_⟩
  · intro ph theme st l n h
    have hl := flushLine_list_stack st
    simp [processEvent, hl, h, List.getLast?_concat, List.dropLast_concat, markerStyle]
  · intro ph theme st m b
    exact ⟨rfl, rfl⟩
  · decide

/-- Witness state for the C5 theorem: a state whose innermost (and only)
list counter is 3. -/
def c5_item_state : RenderState :=
  { initState GITHUB_DARK_THEME with list_stack := [3] }

theorem c5_ordered_list_numbering_witness :
    processEvent "[[BR_TAG]]" GITHUB_DARK_THEME c5_item_state
        (MarkdownEvent.Start Tag.Item)
      = some { flushLine c5_item_state with
          list_stack := [] ++ [(3 + 1) % W64],
          current_spans := (flushLine c5_item_state).current_spans ++
            [Span.raw (String.join (List.replicate ((([] : List Nat) ++ [3]).length - 1) "  ")),
             Span.styled (toString 3 ++ ". ") (markerStyle GITHUB_DARK_THEME)] }
    ∧ markerTexts (render_markdown (c5_events 3) "[[BR_TAG]]" GITHUB_DARK_THEME)
        GITHUB_DARK_THEME = ["3. ", "4. ", "7. ", "8. ", "5. "] :=
  ⟨c5_ordered_list_numbering.1 "[[BR_TAG]]" GITHUB_DARK_THEME c5_item_state [] 3 rfl,
   c5_ordered_list_numbering.2.2⟩

/-! ## C6 — heading styles -/

/-- The event stream of a level-1 heading with text `x`. -/
def c6_h1_events : List MarkdownEvent :=
  [.Start (.Heading 1), .Text "x", .End (.Heading 1)]

/-- The event stream of a level-2 heading with text `x`. -/
def c6_h2_events : List MarkdownEvent :=
  [.Start (.Heading 2), .Text "x", .End (.Heading 2)]

/-- C6 counterexample: a level-1 heading and a level-2 heading render to
exactly the same styled document — in particular the same color — refuting
the claim that the top two heading levels receive two distinct colors. -/
theorem c6_counterexample :
    render_markdown c6_h1_events "[[BR_TAG]]" GITHUB_DARK_THEME
      = render_markdown c6_h2_events "[[BR_TAG]]" GITHUB_DARK_THEME := by decide

/-- C6 (amended): a heading-open flushes the pending line, inserts one blank
line, and pushes a bold style carrying the single theme heading color at
every level; the dim modifier is added exactly for levels three and deeper,
so H1 and H2 share one identical style and deeper levels differ from it only
by dimming. A heading-close flushes the pending line and pops the entry. -/
theorem c6_heading_open_close (ph : String) (theme : ColorScheme)
    (st : RenderState) (level : Nat) :
    processEvent ph theme st (MarkdownEvent.Start (Tag.Heading level))
      = some { flushLine st with
          lines := (flushLine st).lines ++ [Line.default],
          style_stack := (flushLine st).style_stack ++
            [if 3 ≤ level
             then ((Style.default.add_modifier MOD_BOLD).setFg theme.heading).add_modifier MOD_DIM
             else (Style.default.add_modifier MOD_BOLD).setFg theme.heading] }
    ∧ processEvent ph theme st (MarkdownEvent.End (TagEnd.Heading level))
      = some { flushLine st with
          style_stack := (flushLine st).style_stack.dropLast } :=
  ⟨rfl, rfl⟩

/-! ## C7 — the two-column table example -/

/-- The event stream the tokenizer produces for
`| A | B |\n|---|---|\n| 1 | 2 |`: the header cells are direct children of
the table head (no row wrapper), the data row is wrapped in a table row. -/
def c7_events : List MarkdownEvent :=
  [.Start (.Table [Alignment.None, Alignment.None]), .Start .TableHead,
   .Start .TableCell, .Text "A", .End .TableCell,
   .Start .TableCell, .Text "B", .End .TableCell,
   .End .TableHead,
   .Start .TableRow,
   .Start .TableCell, .Text "1", .End .TableCell,
   .Start .TableCell, .Text "2", .End .TableCell,
   .End .TableRow, .End .Table]

/-- C7 counterexample: the rendered output of the example table has exactly
two lines, not the six claimed (top border, header row, alignment separator,
data row, bottom border, trailing blank). -/
theorem c7_counterexample :
    (render_markdown c7_events "[[BR_TAG]]" GITHUB_DARK_THEME).lines.length = 2
    ∧ (2 : Nat) ≠ 6 := by decide

/-- C7 (amended): the example table renders as one content line followed by
one blank line. No border or alignment-separator lines are emitted (the
table-open, head-close and table-close handlers draw none), and because the
head-close handler does not flush the pending line and the header has no
row-open event, the bold header cell spans `"A"`, `"B"` (each followed by a
cell-separator span) are followed on the same line by the row-leading border
span and the data cell spans `"1"`, `"2"` with their separators. -/
theorem c7_table_output :
    render_markdown c7_events "[[BR_TAG]]" GITHUB_DARK_THEME
      = ⟨[Line.mk [Span.styled "A" styleBold, Span.styled " │ " styleComment,
                   Span.styled "B" styleBold, Span.styled " │ " styleComment,
                   Span.styled "│ " styleComment,
                   Span.styled "1" styleBaseline, Span.styled " │ " styleComment,
                   Span.styled "2" styleBaseline, Span.styled " │ " styleComment],
          Line.default]⟩ := by decide

/-! ## C8 — verbatim code-block text -/

/-- C8: a text event received inside a code block changes no stack and no
flag; the text is split on its line breaks (str::lines) and each resulting
line becomes one complete output line made of the left-border glyph span and
one span holding that line verbatim, styled with the current style with the
theme foreground — independent of the characters of the text, so
inline-markup-like sequences cause no style change. -/
theorem c8_code_block_verbatim (ph : String) (theme : ColorScheme)
    (st : RenderState) (t : String) (h : st.in_code_block = true) :
    processEvent ph theme st (MarkdownEvent.Text t)
      = some { st with lines := st.lines ++ (rustLines t.data).map (fun l =>
          Line.mk [Span.styled "│ " (Style.default.setFg theme.comment),
                   Span.styled (String.mk l)
                     ((st.style_stack.getLast?.getD Style.default).setFg theme.fg)]) } := by
  simp only [processEvent]
  rw [if_pos h]

/-- Witness state for the C8 theorem: the state just after a code-block
open (code-block flag set, code background style pushed). -/
def c8_code_state : RenderState :=
  { initState GITHUB_DARK_THEME with
    in_code_block := true
    style_stack := [styleBaseline, Style.default.setBg GITHUB_DARK_THEME.code_bg] }

theorem c8_code_block_verbatim_witness :
    c8_code_state.in_code_block = true
    ∧ processEvent "[[BR_TAG]]" GITHUB_DARK_THEME c8_code_state
        (MarkdownEvent.Text "**bold**\nx")
      = some { c8_code_state with lines := c8_code_state.lines ++
          (rustLines ("**bold**\nx" : String).data).map (fun l =>
            Line.mk [Span.styled "│ " (Style.default.setFg GITHUB_DARK_THEME.comment),
                     Span.styled (String.mk l)
                       ((c8_code_state.style_stack.getLast?.getD Style.default).setFg
                         GITHUB_DARK_THEME.fg)]) } :=
  ⟨rfl, c8_code_block_verbatim "[[BR_TAG]]" GITHUB_DARK_THEME c8_code_state
    "**bold**\nx" rfl⟩

/-! ## C9 — totality -/

/-- C9: the transducer is total: for every event stream (well-formed or
not), every placeholder string and every theme, the event loop — in which
every fallible step is modeled explicitly via `Option` — produces a final
state, and `render_markdown` returns its document. -/
theorem c9_render_total (events : List MarkdownEvent) (ph : String)
    (theme : ColorScheme) :
    ∃ st, renderStateOpt events ph theme = some st
      ∧ render_markdown events ph theme = ⟨st.lines⟩ := by
  obtain ⟨st, hst⟩ := Option.isSome_iff_exists.mp (renderStateOpt_isSome events ph theme)
  refine ⟨st, hst, ?_⟩
  rw [render_markdown, hst]

/-! ## C10 — termination of the segmentation loop and the empty-placeholder
guard -/

/-- C10: first conjunct: for every non-empty placeholder, every style and
every text, the segmentation loop terminates within `t.length + 1`
iterations (the fuel the text handler supplies) — each found occurrence
advances the scan position by at least the placeholder's length. Second
conjunct: when the placeholder is the empty string, the explicit guard skips
segmentation entirely and the text run is appended as one unsplit span
(without the guard the loop could never advance past position 0, since every
string contains the empty string there). -/
theorem c10_segmentation_guarded :
    (∀ (ph : List Char) (sty : Style) (t : List Char) (cur : List Span)
        (acc : List Line), ph ≠ [] →
        (segLoopFuel ph sty (t.length + 1) t cur acc).isSome = true)
    ∧ (∀ (theme : ColorScheme) (st : RenderState) (t : String),
        st.in_code_block = false →
        processEvent "" theme st (MarkdownEvent.Text t)
          = some { st with current_spans := st.current_spans ++
              [Span.styled t
                (if st.in_table_header
                 then (st.style_stack.getLast?.getD Style.default).add_modifier MOD_BOLD
                 else st.style_stack.getLast?.getD Style.default)] }) := by
  constructor
  · intro ph sty t cur acc h
    exact segLoopFuel_isSome ph sty h (t.length + 1) t cur acc (by omega)
  · intro theme st t hc
    have hd : ("" : String).data = [] := rfl
    simp only [processEvent]
    rw [if_neg (by simp [hc])]
    rw [if_neg (by simp [hd])]

theorem c10_segmentation_guarded_witness :
    (segLoopFuel ("[[BR_TAG]]" : String).data Style.default
        (("a[[BR_TAG]]b" : String).data.length + 1)
        ("a[[BR_TAG]]b" : String).data [] []).isSome = true
    ∧ processEvent "" GITHUB_DARK_THEME (initState GITHUB_DARK_THEME)
        (MarkdownEvent.Text "hi")
      = some { initState GITHUB_DARK_THEME with current_spans :=
          (initState GITHUB_DARK_THEME).current_spans ++
          [Span.styled "hi"
            (if (initState GITHUB_DARK_THEME).in_table_header
             then ((initState GITHUB_DARK_THEME).style_stack.getLast?.getD
                     Style.default).add_modifier MOD_BOLD
             else (initState GITHUB_DARK_THEME).style_stack.getLast?.getD
                     Style.default)] } :=
  ⟨c10_segmentation_guarded.1 ("[[BR_TAG]]" : String).data Style.default
      ("a[[BR_TAG]]b" : String).data [] [] (by decide),
   c10_segmentation_guarded.2 GITHUB_DARK_THEME (initState GITHUB_DARK_THEME)
      "hi" rfl⟩

end MdPreview
